import Mathlib

/-!
Verification of the link-resolver core (`src/app.py`).

A shallow embedding of the automation core of the repository: the countdown
detector `wait_for_countdown_zero`, the final-link extractor `find_get_link`,
and the resolution orchestrator `resolve_link_flow`.

Modelling conventions:
* Selenium browser interactions are oracles: every lookup or attribute read is
  an `Except Unit` value, where `Except.error ()` stands for a raised
  exception (`NoSuchElementException`, `StaleElementReferenceException`,
  `WebDriverException`, ...) and `Except.ok` for a normal return.
  `get_attribute` returning Python `None` is `Except.ok none`.
* Python strings are Lean `String`s; the Python operations used by the code
  (`in`, `find`, slicing, `strip`, `lower`, `startswith`, `isdigit`, `int`)
  are modelled over the character list, with ASCII semantics.
* Wall-clock time is modelled by poll cycles / loop fuel; `time.sleep(1)`
  inside the countdown poll loop is counted by `countdownSleepCount`.
-/

/-! ## Python string primitives -/

/-- Whitespace characters stripped by Python `str.strip()` (ASCII range). -/
def pySpace (c : Char) : Bool :=
  c = ' ' || c = '\t' || c = '\n' || c = '\r' || c = '\x0b' || c = '\x0c'

/-- Python `str.strip()`. -/
def pyStrip (s : String) : String :=
  (((s.toList.dropWhile pySpace).reverse.dropWhile pySpace).reverse).asString

/-- Python `str.lower()` (ASCII). -/
def pyLower (s : String) : String :=
  (s.toList.map Char.toLower).asString

/-- Index of the first occurrence of `sub` in `s`, if any (smallest index). -/
def findSubL (s sub : List Char) : Option Nat :=
  (List.range (s.length + 1)).find? (fun i => sub.isPrefixOf (s.drop i))

/-- Python `s.find(sub, start)`, with `none` for Python's `-1`. -/
def pyFindFrom (s sub : String) (start : Nat) : Option Nat :=
  (findSubL (s.toList.drop start) sub.toList).map (· + start)

/-- Python `sub in s` substring test. -/
def containsSub (s sub : String) : Bool :=
  (findSubL s.toList sub.toList).isSome

/-- Python `s.startswith(pre)`. -/
def pyStartsWith (s pre : String) : Bool :=
  pre.toList.isPrefixOf s.toList

/-- Value of a list of decimal digits, most significant first. -/
def natOfDigits (l : List Char) : Nat :=
  l.foldl (fun acc c => acc * 10 + (c.toNat - '0'.toNat)) 0

/-- Python `int(s)` restricted to strings made of digits and `'-'` characters
(the only shape produced by the countdown filter); `none` models
`ValueError`. -/
def pyIntOfDigits (l : List Char) : Option Int :=
  match l with
  | [] => none
  | '-' :: rest =>
    if !rest.isEmpty && rest.all Char.isDigit then some (-(natOfDigits rest : Int))
    else none
  | _ =>
    if l.all Char.isDigit then some ((natOfDigits l : Int)) else none

/-! ## Countdown detector (`wait_for_countdown_zero`, app.py lines 68-116)

The driver is modelled per poll cycle: `pages : Nat → CPage` gives, for each
poll cycle, the result of the four `find_elements` calls for the fixed
selector list `[(By.ID, "ce-time"), (By.ID, "timer"),
(By.CSS_SELECTOR, "#countdown, .countdown, #ce-wait1"),
(By.CSS_SELECTOR, "span.timer")]`.  A failing `el.text` read is the
`StaleElementReferenceException` path of the code (skip this element). -/

/-- A located countdown element: its `.text`, or a raised exception. -/
structure CElem where
  text : Except Unit String

/-- Results of the four countdown selector lookups on one poll cycle. -/
structure CPage where
  ceTime : Except Unit (List CElem)
  timer : Except Unit (List CElem)
  countdownCss : Except Unit (List CElem)
  spanTimer : Except Unit (List CElem)

/-- The selectors, in the order the code iterates them. -/
def cpageSelectors (p : CPage) : List (Except Unit (List CElem)) :=
  [p.ceTime, p.timer, p.countdownCss, p.spanTimer]

/-- Computation `digits = "".join(ch for ch in text if ch.isdigit() or ch == "-")` applied
to `el.text.strip()` (app.py lines 92-94). -/
def collectSignDigits (t : String) : List Char :=
  (pyStrip t).toList.filter (fun c => c.isDigit || c = '-')

/-- One element of a countdown selector: does its text parse to a value
`<= 0` (the `return True` condition, app.py lines 98-105)? -/
def elemZero (e : CElem) : Bool :=
  match e.text with
  | .error _ => false
  | .ok t =>
    match pyIntOfDigits (collectSignDigits t) with
    | none => false
    | some n => n ≤ 0

/-- Did this selector lookup locate at least one element (sets `found_any`)? -/
def selFound (s : Except Unit (List CElem)) : Bool :=
  match s with
  | .error _ => false
  | .ok es => !es.isEmpty

/-- Does this selector lookup yield an element that has reached zero? -/
def selZero (s : Except Unit (List CElem)) : Bool :=
  match s with
  | .error _ => false
  | .ok es => es.any elemZero

/-- Flag `found_any` at the end of one poll cycle (app.py lines 83-112). -/
def cycleFound (p : CPage) : Bool :=
  (cpageSelectors p).any selFound

/-- Whether one poll cycle hits `return True` (some element parses `<= 0`). -/
def cycleZero (p : CPage) : Bool :=
  (cpageSelectors p).any selZero

/-- Function `wait_for_countdown_zero` (app.py lines 68-116).  `fuel` is the number of
poll cycles the `while time.time() - start < timeout` budget allows; the
stream is shifted by one on each `time.sleep(1)` iteration. -/
def wait_for_countdown_zero (pages : Nat → CPage) : Nat → Bool
  | 0 => false
  | fuel + 1 =>
    if cycleZero (pages 0) then true
    else if cycleFound (pages 0) then
      wait_for_countdown_zero (fun n => pages (n + 1)) fuel
    else false

/-- Number of `time.sleep(1)` calls executed by `wait_for_countdown_zero`. -/
def countdownSleepCount (pages : Nat → CPage) : Nat → Nat
  | 0 => 0
  | fuel + 1 =>
    if cycleZero (pages 0) then 0
    else if cycleFound (pages 0) then
      1 + countdownSleepCount (fun n => pages (n + 1)) fuel
    else 0

/-! ## Final-link extractor (`find_get_link`, app.py lines 118-196)

The page is modelled by the results of the five driver queries the function
makes: the two `find_element(By.ID, ...)` calls, the class-selector
`find_elements`, the text-match XPath `find_elements`, and the
`find_elements(By.TAG_NAME, "a")` anchor list. -/

/-- A DOM element as `find_get_link` sees it: each attribute read can return
a string, return Python `None` (`Except.ok none`) or raise. -/
structure Element where
  href : Except Unit (Option String)
  onclick : Except Unit (Option String)
  text : Except Unit (Option String)

/-- The driver queries issued by `find_get_link`. -/
structure Page where
  idGetLink : Except Unit Element
  idGtLink : Except Unit Element
  classGetLink : Except Unit (List Element)
  textGetLink : Except Unit (List Element)
  anchors : Except Unit (List Element)

/-- Python truthiness of an `href` attribute: `if href: return href`. -/
def hrefTruthy (o : Option String) : Option String :=
  match o with
  | none => none
  | some h => if h = "" then none else some h

/-- Strategy 1/2 body: `el = find_element(By.ID, ...); href = el.get_attribute("href");
if href: return href` inside a `try` (app.py lines 129-142). -/
def stratById (lookup : Except Unit Element) : Option String :=
  match lookup with
  | .error _ => none
  | .ok el =>
    match el.href with
    | .error _ => none
    | .ok h => hrefTruthy h

/-- The loop of strategy 3 of `find_get_link` (class selector, app.py lines
145-151): first element with a truthy `href`; a raised read aborts the
whole `try` block. -/
def firstHref : List Element → Except Unit (Option String)
  | [] => .ok none
  | e :: es => do
    let h ← e.href
    match hrefTruthy h with
    | some s => pure (some s)
    | none => firstHref es

/-- Strategy using the class selectors `a.get-link, .get-link, a.btn.get-link`
(app.py lines 144-152). -/
def stratClass (p : Page) : Option String :=
  match p.classGetLink with
  | .error _ => none
  | .ok els =>
    match firstHref els with
    | .error _ => none
    | .ok r => r

/-- The `end` index of the onclick slice (app.py lines 167-171): the first
single quote at or after `start`, else the first double quote, else
`len(onclick)`. -/
def onclickStop (onclick : String) (start : Nat) : Nat :=
  match pyFindFrom onclick "'" start with
  | some e => e
  | none =>
    match pyFindFrom onclick "\"" start with
    | some e => e
    | none => onclick.toList.length

/-- Slice `onclick[start:end]` extraction of the first `http`-prefixed substring up
to the next quote (app.py lines 165-172). -/
def extractOnclick (onclick : String) : String :=
  match pyFindFrom onclick "http" 0 with
  | none => ""
  | some start =>
    ((onclick.toList.drop start).take (onclickStop onclick start - start)).asString

/-- The loop of the text-match strategy (app.py lines 157-172): truthy `href`
wins, otherwise an `onclick` containing `"http"` is mined for the URL. -/
def textScan : List Element → Except Unit (Option String)
  | [] => .ok none
  | e :: es => do
    let h ← e.href
    match hrefTruthy h with
    | some s => pure (some s)
    | none => do
      let oc ← e.onclick
      let onclick := oc.getD ""
      if containsSub onclick "http" then pure (some (extractOnclick onclick))
      else textScan es

/-- Strategy matching visible text `'get link'` via XPath (app.py lines
154-174). -/
def stratText (p : Page) : Option String :=
  match p.textGetLink with
  | .error _ => none
  | .ok els =>
    match textScan els with
    | .error _ => none
    | .ok r => r

/-- Reverse anchor scan (app.py lines 179-187): the code iterates
`anchors[::-1]`, so this is applied to the reversed anchor list. -/
def reverseScanA : List Element → Except Unit (Option String)
  | [] => .ok none
  | a :: rest => do
    let hrefO ← a.href
    let href := hrefO.getD ""
    let txtO ← a.text
    let txt := pyLower (pyStrip (txtO.getD ""))
    if href = "" then reverseScanA rest
    else if (containsSub href "telegram" || containsSub href "t.me" ||
             containsSub href "http") &&
            (containsSub txt "get link" || txt != "") then
      pure (some href)
    else reverseScanA rest

/-- Forward fallback scan (app.py lines 189-192): first anchor whose `href`
starts with `http` and is longer than 20 characters. -/
def forwardScanA : List Element → Except Unit (Option String)
  | [] => .ok none
  | a :: rest => do
    let hrefO ← a.href
    let href := hrefO.getD ""
    if pyStartsWith href "http" && href.toList.length > 20 then
      pure (some href)
    else forwardScanA rest

/-- Strategies 4 and 5 of `find_get_link` (app.py lines 177-194).  Both scans
live inside one `try` block, so a raise anywhere in either loop yields
`none` for the pair. -/
def strat45 (p : Page) : Option String :=
  match p.anchors with
  | .error _ => none
  | .ok anchors =>
    match (do
      match ← reverseScanA anchors.reverse with
      | some h => pure (some h)
      | none => forwardScanA anchors : Except Unit (Option String)) with
    | .error _ => none
    | .ok r => r

/-- Function `find_get_link` (app.py lines 118-196): the five strategies in source
order, first success wins, `None` when all fail. -/
def find_get_link (p : Page) : Option String :=
  match stratById p.idGetLink with
  | some h => some h
  | none =>
    match stratById p.idGtLink with
    | some h => some h
    | none =>
      match stratClass p with
      | some h => some h
      | none =>
        match stratText p with
        | some h => some h
        | none => strat45 p

/-- Sequential first-success choice, used to state the priority contract. -/
def firstSome : List (Option String) → Option String
  | [] => none
  | o :: os =>
    match o with
    | some s => some s
    | none => firstSome os

/-! ## Resolution orchestrator (`resolve_link_flow`, app.py lines 198-352)

The driver is an oracle `env : Nat → String → StepPage`: at loop iteration
`k`, after `driver.get(current_url)`, the oracle gives everything the driver
returns during that iteration.  The `steps` audit list of the code is the
`log` field; the outcome classifies which exit of the loop was taken. -/

/-- Entries of the `steps` audit list (`steps.append((...))` in app.py). -/
inductive Ev where
  | openUrl : String → Ev
  | click : String → Ev
  | found : String → Ev
  | heuristicFollow : String → Ev
deriving DecidableEq

/-- How one loop iteration ends. -/
inductive StepOut where
  | loopStop : StepOut
  | redirect : String → StepOut
  | foundLink : String → StepOut
  | clickedNext : StepOut
  | clickedProceed : StepOut
  | followAnchor : String → StepOut
  | deadEnd : StepOut
  | anchorsError : StepOut
deriving DecidableEq

/-- Everything the driver returns during one loop iteration:
the four primary click attempts (app.py lines 247-268), the URL read after
the settle delay (line 275), the page as the first `find_get_link` call sees
it (line 289), the `timer` element text (lines 298-299, exceptions from
lookup and read folded together), the page as the second `find_get_link`
call sees it (line 302), the two fallback click attempts (lines 314, 319)
and the anchor list of the heuristic-follow pass (line 326). -/
structure StepPage where
  clickBtn6 : Bool
  clickVerifyText : Bool
  clickBtn7 : Bool
  clickContinueText : Bool
  urlAfter : Except Unit String
  page1 : Page
  timerText : Except Unit String
  page2 : Page
  clickNextText : Bool
  clickProceedText : Bool
  anchors2 : Except Unit (List Element)

/-- Terminal classification of a run (derived from which exit the loop took;
the Python function itself only returns `final_link`). -/
inductive Outcome where
  | found : Outcome
  | loopDetected : Outcome
  | exhausted : Outcome
  | budgetExhausted : Outcome
  | fatal : Outcome
deriving DecidableEq

/-- Result of a run: the returned `final_link`, the number of loop
iterations executed, the `visited` set (as insertion-ordered list), the
`steps` audit list, and the derived outcome. -/
structure FlowResult where
  finalLink : Option String
  stepsExecuted : Nat
  visited : List String
  log : List Ev
  outcome : Outcome

/-- The `steps.append(("click", ...))` events of the primary Verify/Continue
click block (app.py lines 245-268): `btn6` elif Verify text, then `btn7`
elif Continue text. -/
def primaryClickEvents (sp : StepPage) : List Ev :=
  (if sp.clickBtn6 then [Ev.click "btn6"]
   else if sp.clickVerifyText then [Ev.click "verify_text"]
   else [])
  ++ (if sp.clickBtn7 then [Ev.click "btn7"]
      else if sp.clickContinueText then [Ev.click "continue_text"]
      else [])

/-- The `clicked` flag after the primary click block (app.py lines 245-268). -/
def primaryClicked (sp : StepPage) : Bool :=
  (if sp.clickBtn6 then true else if sp.clickVerifyText then true else false)
  || (if sp.clickBtn7 then true else if sp.clickContinueText then true else false)

/-- The `timer` retry block (app.py lines 297-309): if the `timer` element's
stripped text is `"0"` or empty, run `find_get_link` again; a raise from the
lookup or the read falls through via `except Exception: pass`. -/
def timerRetry (sp : StepPage) : Option String :=
  match sp.timerText with
  | .error _ => none
  | .ok t =>
    if pyStrip t = "0" ∨ pyStrip t = "" then find_get_link sp.page2 else none

/-- The heuristic anchor-follow scan (app.py lines 326-336): first anchor
whose `href` is truthy and contains `"/readmore"` or `"continue"`, or whose
stripped lowered text is one of the continue-shaped words.  The attribute
reads here are NOT inside a `try`, so a raise aborts the whole flow. -/
def heuristicPick : List Element → Except Unit (Option String)
  | [] => .ok none
  | a :: rest => do
    let hrefO ← a.href
    let href := hrefO.getD ""
    let txtO ← a.text
    let txt := pyLower (pyStrip (txtO.getD ""))
    if href != "" &&
       (containsSub href "/readmore" || containsSub href "continue" ||
        (txt = "continue" || txt = "read more" || txt = "get link" ||
         txt = "get-link")) then
      pure (some href)
    else heuristicPick rest

/-- One iteration of the `for step in range(max_steps)` loop (app.py lines
229-342), given the oracle's answers `sp`, the current URL and the visited
set.  Returns the audit events appended during the iteration (after the
`("open", current_url)` entry) and how the iteration ended. -/
def flowStep (sp : StepPage) (current : String) (visited : List String) :
    List Ev × StepOut :=
  let evs := primaryClickEvents sp
  let clicked := primaryClicked sp
  match (match sp.urlAfter with
         | .error _ => none
         | .ok newUrl => if newUrl = current then none else some newUrl) with
  | some newUrl =>
    if visited.contains newUrl then (evs, .loopStop)
    else (evs, .redirect newUrl)
  | none =>
    match find_get_link sp.page1 with
    | some c => (evs ++ [Ev.found c], .foundLink c)
    | none =>
      match timerRetry sp with
      | some c => (evs ++ [Ev.found c], .foundLink c)
      | none =>
        if !clicked && sp.clickNextText then
          (evs ++ [Ev.click "next_text"], .clickedNext)
        else if !clicked && sp.clickProceedText then
          (evs ++ [Ev.click "proceed_text"], .clickedProceed)
        else
          match sp.anchors2 with
          | .error _ => (evs, .anchorsError)
          | .ok anchors =>
            match heuristicPick anchors with
            | .error _ => (evs, .anchorsError)
            | .ok (some href) =>
              (evs ++ [Ev.heuristicFollow href], .followAnchor href)
            | .ok none => (evs, .deadEnd)

/-- The orchestration loop of `resolve_link_flow` (app.py lines 229-342).
`fuel` is the remaining loop budget, `k` the number of iterations already
executed.  A repeated redirect target exits with `loopDetected` (line 281);
a fresh one is added to `visited` and the loop restarts on the new URL
(lines 282-284); `Next`/`Proceed` fallback clicks and heuristic anchor
follows restart the loop (lines 318, 323, 338); a dead end exits (line 342);
a raise in the heuristic anchor scan is caught only at the orchestrator
boundary (line 344). -/
def flowLoop (env : Nat → String → StepPage) :
    Nat → Nat → String → List String → List Ev → FlowResult
  | 0, k, _, visited, log =>
    { finalLink := none, stepsExecuted := k, visited := visited, log := log,
      outcome := .budgetExhausted }
  | fuel + 1, k, current, visited, log =>
    match flowStep (env k current) current visited with
    | (evs, .loopStop) =>
      ⟨none, k + 1, visited, log ++ [Ev.openUrl current] ++ evs, .loopDetected⟩
    | (evs, .redirect u) =>
      flowLoop env fuel (k + 1) u (visited ++ [u])
        (log ++ [Ev.openUrl current] ++ evs)
    | (evs, .foundLink s) =>
      ⟨some s, k + 1, visited, log ++ [Ev.openUrl current] ++ evs, .found⟩
    | (evs, .clickedNext) =>
      flowLoop env fuel (k + 1) current visited
        (log ++ [Ev.openUrl current] ++ evs)
    | (evs, .clickedProceed) =>
      flowLoop env fuel (k + 1) current visited
        (log ++ [Ev.openUrl current] ++ evs)
    | (evs, .followAnchor h) =>
      flowLoop env fuel (k + 1) h visited
        (log ++ [Ev.openUrl current] ++ evs)
    | (evs, .deadEnd) =>
      ⟨none, k + 1, visited, log ++ [Ev.openUrl current] ++ evs, .exhausted⟩
    | (evs, .anchorsError) =>
      ⟨none, k + 1, visited, log ++ [Ev.openUrl current] ++ evs, .fatal⟩

/-- Function `resolve_link_flow(start_url, ..., max_steps)` (app.py line 198):
`current_url = start_url`, `visited = set()`, `final_link = None`, then the
bounded loop.  The browser-driver bootstrap (lines 204-222) is out of scope. -/
def resolve_link_flow (env : Nat → String → StepPage) (start_url : String)
    (max_steps : Nat) : FlowResult :=
  flowLoop env max_steps 0 start_url [] []

/-! ## Concrete fixtures used by witnesses and counterexamples -/

/-- A page on which every extractor query raises: `find_get_link` yields
`None`. -/
def noLinkPage : Page :=
  { idGetLink := .error (), idGtLink := .error (), classGetLink := .error (),
    textGetLink := .error (), anchors := .error () }

/-- A pure-redirect interstitial: loading `u` lands on `r u`; no countdown,
no clickable control, no extractable link, no anchors. -/
def redirectPage (r : String → String) (u : String) : StepPage :=
  { clickBtn6 := false, clickVerifyText := false, clickBtn7 := false,
    clickContinueText := false, urlAfter := .ok (r u), page1 := noLinkPage,
    timerText := .error (), page2 := noLinkPage, clickNextText := false,
    clickProceedText := false, anchors2 := .ok [] }

/-- Oracle for a synthetic page graph that only redirects: at every step,
loading `u` lands on `r u`. -/
def redirectEnv (r : String → String) : Nat → String → StepPage :=
  fun _ u => redirectPage r u

/-- The two-page redirect cycle `a -> b -> a`. -/
def rSwap : String → String :=
  fun u => if u = "a" then "b" else if u = "b" then "a" else u

/-- Oracle for a fully inert page: no redirect, no control, no anchor. -/
def inertEnv : Nat → String → StepPage :=
  fun _ u =>
    { clickBtn6 := false, clickVerifyText := false, clickBtn7 := false,
      clickContinueText := false, urlAfter := .ok u, page1 := noLinkPage,
      timerText := .error (), page2 := noLinkPage, clickNextText := false,
      clickProceedText := false, anchors2 := .ok [] }

/-! ## Generic lemmas about the orchestration loop -/

theorem flowLoop_steps_le (env : Nat → String → StepPage) :
    ∀ fuel k cur vis log,
      (flowLoop env fuel k cur vis log).stepsExecuted ≤ k + fuel := by
  intro fuel
  induction fuel with
  | zero => intro k cur vis log; simp [flowLoop]
  | succ n ih =>
    intro k cur vis log
    simp only [flowLoop]
    split <;>
      first
        | (show k + 1 ≤ k + (n + 1); omega)
        | exact Nat.le_trans (ih _ _ _ _) (by omega)

theorem flowLoop_visited_ext (env : Nat → String → StepPage) :
    ∀ fuel k cur vis log,
      ∃ ext, (flowLoop env fuel k cur vis log).visited = vis ++ ext := by
  intro fuel
  induction fuel with
  | zero => intro k cur vis log; exact ⟨[], by simp [flowLoop]⟩
  | succ n ih =>
    intro k cur vis log
    simp only [flowLoop]
    split
    · exact ⟨[], by simp⟩
    · rename_i evs u _
      obtain ⟨ext, hext⟩ :=
        ih (k + 1) u (vis ++ [u]) (log ++ Ev.openUrl cur :: evs)
      exact ⟨u :: ext, by simp [hext]⟩
    · exact ⟨[], by simp⟩
    · exact ih _ _ _ _
    · exact ih _ _ _ _
    · exact ih _ _ _ _
    · exact ⟨[], by simp⟩
    · exact ⟨[], by simp⟩

theorem flowLoop_visited_mono (env : Nat → String → StepPage)
    (fuel k : Nat) (cur : String) (vis : List String) (log : List Ev)
    (u : String) (hu : u ∈ vis) :
    u ∈ (flowLoop env fuel k cur vis log).visited := by
  obtain ⟨ext, hext⟩ := flowLoop_visited_ext env fuel k cur vis log
  rw [hext]
  exact List.mem_append_left _ hu

@[simp] theorem find_get_link_noLinkPage : find_get_link noLinkPage = none := rfl

/-- C2: for every oracle, start URL and step budget, the orchestration loop
of `resolve_link_flow` executes at most `max_steps` iterations. -/
theorem step_budget_respected (env : Nat → String → StepPage)
    (start_url : String) (max_steps : Nat) :
    (resolve_link_flow env start_url max_steps).stepsExecuted ≤ max_steps := by
  have h := flowLoop_steps_le env max_steps 0 start_url [] []
  simpa [resolve_link_flow] using h

/-- C1 counterexample: on a fully inert page the start URL is observed as
`current_url` (it is opened, and the run completes a step) yet `visited`
stays empty: the start URL is never inserted into the visited set. -/
theorem start_url_not_in_visited :
    (resolve_link_flow inertEnv "https://start.example/x" 12).visited = [] ∧
    (resolve_link_flow inertEnv "https://start.example/x" 12).log =
      [Ev.openUrl "https://start.example/x"] ∧
    (resolve_link_flow inertEnv "https://start.example/x" 12).stepsExecuted = 1 :=
  ⟨rfl, rfl, rfl⟩

/-- C1 (amended): only redirect targets detected by the navigation tracker
are inserted into `visited`; each such target, and every URL already in
`visited`, is a member of the final visited set from that point onward.
(The start URL and heuristic-follow targets are never inserted.) -/
theorem redirect_target_in_visited (env : Nat → String → StepPage)
    (fuel k : Nat) (cur : String) (vis : List String) (log : List Ev)
    (u : String)
    (h : u ∈ vis ∨ (flowStep (env k cur) cur vis).2 = StepOut.redirect u)
    (hfuel : 0 < fuel) :
    u ∈ (flowLoop env fuel k cur vis log).visited := by
  rcases h with h | h
  · exact flowLoop_visited_mono env fuel k cur vis log u h
  · obtain ⟨n, rfl⟩ : ∃ m, fuel = m + 1 := ⟨fuel - 1, by omega⟩
    rcases hfs : flowStep (env k cur) cur vis with ⟨evs, out⟩
    rw [hfs] at h
    simp only [] at h
    subst h
    simp only [flowLoop, hfs]
    exact flowLoop_visited_mono env n (k + 1) u (vis ++ [u]) _ u (by simp)

/-- Witness for the amended C1 on the concrete two-page redirect cycle. -/
theorem redirect_target_in_visited_witness :
    "b" ∈ (flowLoop (redirectEnv rSwap) 12 0 "a" [] []).visited :=
  redirect_target_in_visited (redirectEnv rSwap) 12 0 "a" [] [] "b"
    (Or.inr rfl) (by omega)

theorem flowLoop_loopStop (env : Nat → String → StepPage) (fuel k : Nat)
    (cur : String) (vis : List String) (log evs : List Ev)
    (hf : flowStep (env k cur) cur vis = (evs, StepOut.loopStop)) :
    flowLoop env (fuel + 1) k cur vis log =
      ⟨none, k + 1, vis, log ++ [Ev.openUrl cur] ++ evs,
        Outcome.loopDetected⟩ := by
  rw [flowLoop, hf]

theorem flowLoop_redirect (env : Nat → String → StepPage) (fuel k : Nat)
    (cur : String) (vis : List String) (log evs : List Ev) (u : String)
    (hf : flowStep (env k cur) cur vis = (evs, StepOut.redirect u)) :
    flowLoop env (fuel + 1) k cur vis log =
      flowLoop env fuel (k + 1) u (vis ++ [u])
        (log ++ [Ev.openUrl cur] ++ evs) := by
  rw [flowLoop, hf]

theorem flowLoop_foundLink (env : Nat → String → StepPage) (fuel k : Nat)
    (cur : String) (vis : List String) (log evs : List Ev) (s : String)
    (hf : flowStep (env k cur) cur vis = (evs, StepOut.foundLink s)) :
    flowLoop env (fuel + 1) k cur vis log =
      ⟨some s, k + 1, vis, log ++ [Ev.openUrl cur] ++ evs, Outcome.found⟩ := by
  rw [flowLoop, hf]

theorem flowLoop_deadEnd (env : Nat → String → StepPage) (fuel k : Nat)
    (cur : String) (vis : List String) (log evs : List Ev)
    (hf : flowStep (env k cur) cur vis = (evs, StepOut.deadEnd)) :
    flowLoop env (fuel + 1) k cur vis log =
      ⟨none, k + 1, vis, log ++ [Ev.openUrl cur] ++ evs,
        Outcome.exhausted⟩ := by
  rw [flowLoop, hf]

/-- On a pure-redirect page, one loop iteration either dead-ends (self
redirect), stops the loop (repeated target) or redirects afresh. -/
theorem flowStep_redirectPage (r : String → String) (cur : String)
    (vis : List String) :
    flowStep (redirectPage r cur) cur vis =
      if r cur = cur then ([], StepOut.deadEnd)
      else if vis.contains (r cur) then ([], StepOut.loopStop)
      else ([], StepOut.redirect (r cur)) := by
  by_cases h : r cur = cur <;>
    by_cases h2 : vis.contains (r cur) <;>
      simp [flowStep, redirectPage, h, h2, primaryClickEvents, primaryClicked,
        timerRetry, heuristicPick]

theorem redirectEnv_loop_bound (r : String → String) :
    ∀ fuel k cur vis log,
      (flowLoop (redirectEnv r) fuel k cur vis log).outcome =
        Outcome.loopDetected →
      (flowLoop (redirectEnv r) fuel k cur vis log).stepsExecuted + vis.length ≤
        k + (flowLoop (redirectEnv r) fuel k cur vis log).visited.length + 1 := by
  intro fuel
  induction fuel with
  | zero => intro k cur vis log h; simp [flowLoop] at h
  | succ n ih =>
    intro k cur vis log h
    have hstep := flowStep_redirectPage r cur vis
    by_cases h1 : r cur = cur
    · rw [if_pos h1] at hstep
      rw [flowLoop_deadEnd (redirectEnv r) n k cur vis log [] hstep] at h
      simp at h
    · by_cases h2 : vis.contains (r cur)
      · rw [if_neg h1, if_pos h2] at hstep
        rw [flowLoop_loopStop (redirectEnv r) n k cur vis log [] hstep] at h ⊢
        simp only []
        omega
      · rw [if_neg h1, if_neg h2] at hstep
        rw [flowLoop_redirect (redirectEnv r) n k cur vis log [] (r cur) hstep]
          at h ⊢
        have hrec := ih (k + 1) (r cur) (vis ++ [r cur])
          (log ++ [Ev.openUrl cur] ++ []) h
        simp only [List.length_append, List.length_cons, List.length_nil]
          at hrec ⊢
        omega

/-- C6: on every pure-redirect synthetic page graph, a run that ends in
`LoopDetected` executes at most `|visited| + 1` loop iterations. -/
theorem cycle_detected_within_visited_bound (r : String → String)
    (start_url : String) (max_steps : Nat)
    (h : (resolve_link_flow (redirectEnv r) start_url max_steps).outcome =
      Outcome.loopDetected) :
    (resolve_link_flow (redirectEnv r) start_url max_steps).stepsExecuted ≤
      (resolve_link_flow (redirectEnv r) start_url max_steps).visited.length
        + 1 := by
  have hb := redirectEnv_loop_bound r max_steps 0 start_url [] []
    (by simpa [resolve_link_flow] using h)
  simp only [resolve_link_flow] at *
  omega

/-- Witness for C6: the cycle `a -> b -> a` is detected as `LoopDetected` in
exactly `|visited| + 1 = 3` steps. -/
theorem cycle_detected_witness :
    (resolve_link_flow (redirectEnv rSwap) "a" 12).outcome =
      Outcome.loopDetected ∧
    (resolve_link_flow (redirectEnv rSwap) "a" 12).stepsExecuted = 3 ∧
    (resolve_link_flow (redirectEnv rSwap) "a" 12).visited = ["b", "a"] ∧
    (resolve_link_flow (redirectEnv rSwap) "a" 12).stepsExecuted ≤
      (resolve_link_flow (redirectEnv rSwap) "a" 12).visited.length + 1 :=
  ⟨rfl, rfl, rfl, cycle_detected_within_visited_bound rSwap "a" 12 rfl⟩

/-- An anchor shaped like a continue link (`href` contains `"/readmore"`). -/
def contAnchor : Element :=
  { href := .ok (some "https://site.example/readmore1"), onclick := .ok none,
    text := .ok (some "") }

/-- Oracle for an interstitial on which a Verify click fires (`btn6`), no
redirect follows, extraction fails, and the page carries a continue-shaped
anchor. -/
def verifyPlusAnchorEnv : Nat → String → StepPage :=
  fun _ u =>
    { clickBtn6 := true, clickVerifyText := false, clickBtn7 := false,
      clickContinueText := false, urlAfter := .ok u, page1 := noLinkPage,
      timerText := .error (), page2 := noLinkPage, clickNextText := false,
      clickProceedText := false, anchors2 := .ok [contAnchor] }

/-- C4 counterexample: in a single step the loop both dispatches a Verify
click (`btn6`) and still attempts the heuristic anchor-follow pass — the
pass is not gated on "no action was dispatched this step". -/
theorem heuristic_follow_despite_click :
    (resolve_link_flow verifyPlusAnchorEnv "https://site.example/p" 1).log =
      [Ev.openUrl "https://site.example/p", Ev.click "btn6",
       Ev.heuristicFollow "https://site.example/readmore1"] ∧
    (resolve_link_flow verifyPlusAnchorEnv
        "https://site.example/p" 1).stepsExecuted = 1 :=
  ⟨rfl, rfl⟩

/-- C4 (amended): the heuristic anchor-follow pass runs in a step only when
both extraction attempts of that step failed and neither `Next` nor
`Proceed` fallback click fired; a Verify/Continue click does not prevent it
(the fallback clicks are themselves attempted only when no primary click
fired). -/
theorem heuristic_follow_conditions (sp : StepPage) (cur : String)
    (vis : List String) (u : String)
    (h : (flowStep sp cur vis).2 = StepOut.followAnchor u) :
    find_get_link sp.page1 = none ∧ timerRetry sp = none ∧
      (primaryClicked sp = true ∨
        (sp.clickNextText = false ∧ sp.clickProceedText = false)) := by
  simp only [flowStep] at h
  repeat' split at h
  all_goals simp_all
  cases hc : primaryClicked sp
  · rename_i hnext hproceed _ _
    rw [hc] at hnext hproceed
    simp at hnext hproceed
    exact Or.inr ⟨hnext, hproceed⟩
  · exact Or.inl rfl

/-- Witness for the amended C4 at the concrete Verify-plus-anchor step. -/
theorem heuristic_follow_conditions_witness :
    find_get_link (verifyPlusAnchorEnv 0 "https://site.example/p").page1 =
      none ∧
    timerRetry (verifyPlusAnchorEnv 0 "https://site.example/p") = none ∧
    (primaryClicked (verifyPlusAnchorEnv 0 "https://site.example/p") = true ∨
      ((verifyPlusAnchorEnv 0 "https://site.example/p").clickNextText = false ∧
       (verifyPlusAnchorEnv 0 "https://site.example/p").clickProceedText =
         false)) :=
  heuristic_follow_conditions (verifyPlusAnchorEnv 0 "https://site.example/p")
    "https://site.example/p" [] "https://site.example/readmore1" rfl

/-! ## Extraction priority and error handling (C3, C8, C10) -/

/-- The stable-id `get-link` control of `bothControlsPage`. -/
def idElem : Element :=
  { href := .ok (some "https://id.example/final"), onclick := .ok none,
    text := .ok (some "Get Link") }

/-- The text-only `get link` match of `bothControlsPage`. -/
def textElem : Element :=
  { href := .ok (some "https://text.example/other"), onclick := .ok none,
    text := .ok (some "get link") }

/-- A page exposing both a stable-id `get-link` control and a text-only
match carrying a different URL. -/
def bothControlsPage : Page :=
  { idGetLink := .ok idElem, idGtLink := .error (), classGetLink := .ok [],
    textGetLink := .ok [textElem], anchors := .ok [] }

/-- C3: the extractor is a strict first-success priority chain, and whenever
the stable-id strategy succeeds with URL `u`, `find_get_link` returns `u`
regardless of what lower-priority strategies would return. -/
theorem extraction_priority (p : Page) (el : Element) (u : String)
    (h1 : p.idGetLink = Except.ok el) (h2 : el.href = Except.ok (some u))
    (h3 : u ≠ "") :
    find_get_link p = some u ∧
      ∀ q : Page, find_get_link q =
        firstSome [stratById q.idGetLink, stratById q.idGtLink, stratClass q,
          stratText q, strat45 q] := by
  constructor
  · have hid : stratById p.idGetLink = some u := by
      rw [h1]
      simp [stratById, h2, hrefTruthy, h3]
    simp [find_get_link, hid]
  · intro q
    simp only [find_get_link, firstSome]
    cases stratById q.idGetLink <;>
      cases stratById q.idGtLink <;>
        cases stratClass q <;>
          cases stratText q <;>
            cases strat45 q <;>
              rfl

/-- Witness for C3 on `bothControlsPage`: the id-based URL wins even though
the text strategy would return a different URL. -/
theorem extraction_priority_witness :
    find_get_link bothControlsPage = some "https://id.example/final" ∧
    stratText bothControlsPage = some "https://text.example/other" :=
  ⟨(extraction_priority bothControlsPage idElem
      "https://id.example/final" rfl rfl (by decide)).1,
   rfl⟩

theorem except_bind_error {α β : Type} (u : Unit) (f : α → Except Unit β) :
    ((Except.error u : Except Unit α) >>= f) = Except.error u := rfl

theorem except_bind_ok {α β : Type} (a : α) (f : α → Except Unit β) :
    ((Except.ok a : Except Unit α) >>= f) = f a := rfl

/-- A long plain `http` anchor with empty visible text: skipped by the
reverse scan (no text), accepted by the forward fallback. -/
def goodAnchor : Element :=
  { href := .ok (some "https://example.com/aaaaaaaaaaaa"),
    onclick := .ok none, text := .ok (some "") }

/-- An anchor whose attribute reads raise (e.g. it went stale). -/
def badAnchor : Element :=
  { href := .error (), onclick := .error (), text := .error () }

/-- A page on which strategies 1-3 find nothing and the anchor list is
`[goodAnchor, badAnchor]`: the reverse scan hits `badAnchor` first and
raises. -/
def sharedTryPage : Page :=
  { idGetLink := .error (), idGtLink := .error (), classGetLink := .ok [],
    textGetLink := .ok [], anchors := .ok [goodAnchor, badAnchor] }

/-- C8 counterexample: an exception during the reverse anchor scan does NOT
proceed to the next strategy — the forward fallback (which would succeed on
this very page) is skipped and the extractor returns `None`. -/
theorem reverse_scan_raise_skips_fallback :
    find_get_link sharedTryPage = none ∧
    forwardScanA [goodAnchor, badAnchor] =
      .ok (some "https://example.com/aaaaaaaaaaaa") :=
  ⟨rfl, rfl⟩

/-- C8 (amended): a raise inside strategies 1-3 is treated as "no match,
continue"; the reverse anchor scan and the forward fallback share a single
handler, so a raise in the reverse scan yields `None` for the pair (the
fallback is skipped); the extractor is total and returns `None` when every
strategy fails. -/
theorem extraction_error_handling (p : Page) :
    (p.idGetLink = .error () → p.idGtLink = .error () →
      p.classGetLink = .error () → p.textGetLink = .error () →
      find_get_link p = strat45 p) ∧
    (stratById p.idGetLink = none → stratById p.idGtLink = none →
      stratClass p = none → stratText p = none → strat45 p = none →
      find_get_link p = none) ∧
    (∀ anchors, p.anchors = .ok anchors →
      reverseScanA anchors.reverse = .error () → strat45 p = none) ∧
    (p.anchors = .error () → strat45 p = none) := by
  refine ⟨?_, ?_, ?_, ?_⟩
  · intro h1 h2 h3 h4
    simp [find_get_link, stratById, stratClass, stratText, h1, h2, h3, h4]
  · intro h1 h2 h3 h4 h5
    simp [find_get_link, h1, h2, h3, h4, h5]
  · intro anchors ha hrev
    simp only [strat45, ha, hrev, except_bind_error]
  · intro h
    simp [strat45, h]

/-- Witness for the amended C8: on `sharedTryPage` the shared handler turns
the reverse-scan raise into `None` for the anchor strategies. -/
theorem extraction_error_handling_witness :
    strat45 sharedTryPage = none :=
  (extraction_error_handling sharedTryPage).2.2.1 [goodAnchor, badAnchor]
    rfl rfl

/-! ## Auxiliary facts about the Python string primitives -/

theorem asString_cons_ne_empty (c : Char) (cs : List Char) :
    (c :: cs).asString ≠ "" := by
  intro h
  have h2 : (c :: cs) = ([] : List Char) := congrArg String.toList h
  simp at h2

theorem findSubL_isPrefixOf {s sub : List Char} {i : Nat}
    (h : findSubL s sub = some i) : sub.isPrefixOf (s.drop i) = true := by
  unfold findSubL at h
  have h2 := List.find?_some h
  simpa using h2

theorem pyFindFrom_some {s sub : String} {start e : Nat}
    (h : pyFindFrom s sub start = some e) :
    start ≤ e ∧ sub.toList.isPrefixOf (s.toList.drop e) = true := by
  unfold pyFindFrom at h
  cases hf : findSubL (s.toList.drop start) sub.toList with
  | none => rw [hf] at h; simp at h
  | some j =>
    rw [hf] at h
    simp at h
    have hp := findSubL_isPrefixOf hf
    rw [List.drop_drop] at hp
    constructor
    · omega
    · have he : start + j = e := by omega
      rwa [he] at hp

theorem isPrefixOf_cons_head {c : Char} {cs l : List Char}
    (h : (c :: cs).isPrefixOf l = true) : ∃ t, l = c :: t := by
  rw [List.isPrefixOf_iff_prefix] at h
  obtain ⟨t, ht⟩ := h
  exact ⟨cs ++ t, by rw [← ht]; simp⟩

theorem onclickStop_gt {onclick : String} {start : Nat} {t : List Char}
    (ht : onclick.toList.drop start = 'h' :: t) :
    start < onclickStop onclick start := by
  unfold onclickStop
  cases hq1 : pyFindFrom onclick "'" start with
  | some e =>
    simp only [hq1]
    obtain ⟨hle, hp⟩ := pyFindFrom_some hq1
    rcases Nat.lt_or_ge start e with hlt | hge
    · exact hlt
    · have he : e = start := by omega
      subst he
      have hp2 : (('\'' : Char) :: []).isPrefixOf (onclick.toList.drop e) =
          true := hp
      obtain ⟨t2, ht2⟩ := isPrefixOf_cons_head hp2
      rw [ht] at ht2
      simp at ht2
  | none =>
    cases hq2 : pyFindFrom onclick "\"" start with
    | some e =>
      simp only [hq1, hq2]
      obtain ⟨hle, hp⟩ := pyFindFrom_some hq2
      rcases Nat.lt_or_ge start e with hlt | hge
      · exact hlt
      · have he : e = start := by omega
        subst he
        have hp2 : (('"' : Char) :: []).isPrefixOf (onclick.toList.drop e) =
            true := hp
        obtain ⟨t2, ht2⟩ := isPrefixOf_cons_head hp2
        rw [ht] at ht2
        simp at ht2
    | none =>
      simp only [hq1, hq2]
      have hlen : (onclick.toList.drop start).length =
          onclick.toList.length - start := List.length_drop start onclick.toList
      rw [ht] at hlen
      simp only [List.length_cons] at hlen
      omega

theorem extractOnclick_ne_empty {onclick : String}
    (h : containsSub onclick "http" = true) : extractOnclick onclick ≠ "" := by
  unfold containsSub at h
  cases hf : findSubL onclick.toList "http".toList with
  | none => rw [hf] at h; simp at h
  | some start =>
    have h0 : pyFindFrom onclick "http" 0 = some start := by
      unfold pyFindFrom
      rw [List.drop_zero, hf]
      rfl
    have hpre := findSubL_isPrefixOf hf
    have hpre2 : (('h' : Char) :: ['t', 't', 'p']).isPrefixOf
        (onclick.toList.drop start) = true := hpre
    obtain ⟨t, ht⟩ := isPrefixOf_cons_head hpre2
    have hstop := onclickStop_gt ht
    unfold extractOnclick
    simp only [h0]
    rw [ht]
    obtain ⟨m, hm⟩ : ∃ m, onclickStop onclick start - start = m + 1 :=
      ⟨onclickStop onclick start - start - 1, by omega⟩
    rw [hm]
    simp only [List.take_succ_cons]
    exact asString_cons_ne_empty _ _

theorem hrefTruthy_some {o : Option String} {s : String}
    (h : hrefTruthy o = some s) : s ≠ "" := by
  cases o with
  | none => simp [hrefTruthy] at h
  | some t =>
    by_cases ht : t = ""
    · simp [hrefTruthy, ht] at h
    · simp [hrefTruthy, ht] at h
      subst h
      exact ht

theorem firstHref_some {es : List Element} {s : String}
    (h : firstHref es = .ok (some s)) : s ≠ "" := by
  induction es with
  | nil => simp [firstHref] at h
  | cons e es ih =>
    cases he : e.href with
    | error u => simp [firstHref, he, except_bind_error] at h
    | ok o =>
      simp only [firstHref, he, except_bind_ok] at h
      cases ho : hrefTruthy o with
      | some r =>
        simp only [ho, pure, Except.pure, Except.ok.injEq,
          Option.some.injEq] at h
        subst h
        exact hrefTruthy_some ho
      | none =>
        simp only [ho] at h
        exact ih h

theorem textScan_some {es : List Element} {s : String}
    (h : textScan es = .ok (some s)) : s ≠ "" := by
  induction es with
  | nil => simp [textScan] at h
  | cons e es ih =>
    cases he : e.href with
    | error u => simp [textScan, he, except_bind_error] at h
    | ok o =>
      simp only [textScan, he, except_bind_ok] at h
      cases ho : hrefTruthy o with
      | some r =>
        simp only [ho, pure, Except.pure, Except.ok.injEq,
          Option.some.injEq] at h
        subst h
        exact hrefTruthy_some ho
      | none =>
        simp only [ho] at h
        cases hoc : e.onclick with
        | error u => simp [hoc, except_bind_error] at h
        | ok oc =>
          simp only [hoc, except_bind_ok] at h
          by_cases hc : containsSub (oc.getD "") "http" = true
          · simp only [hc, if_true, pure, Except.pure, Except.ok.injEq,
              Option.some.injEq] at h
            subst h
            exact extractOnclick_ne_empty hc
          · simp only [eq_false_of_ne_true hc, if_false] at h
            exact ih h

theorem reverseScanA_some {as : List Element} {s : String}
    (h : reverseScanA as = .ok (some s)) : s ≠ "" := by
  induction as with
  | nil => simp [reverseScanA] at h
  | cons a as ih =>
    cases ha : a.href with
    | error u => simp [reverseScanA, ha, except_bind_error] at h
    | ok o =>
      simp only [reverseScanA, ha, except_bind_ok] at h
      cases ht : a.text with
      | error u => simp [ht, except_bind_error] at h
      | ok tx =>
        simp only [ht, except_bind_ok] at h
        split at h
        · exact ih h
        · rename_i hne
          split at h
          · simp only [pure, Except.pure, Except.ok.injEq,
              Option.some.injEq] at h
            subst h
            exact hne
          · exact ih h

theorem forwardScanA_some {as : List Element} {s : String}
    (h : forwardScanA as = .ok (some s)) : s ≠ "" := by
  induction as with
  | nil => simp [forwardScanA] at h
  | cons a as ih =>
    cases ha : a.href with
    | error u => simp [forwardScanA, ha, except_bind_error] at h
    | ok o =>
      simp only [forwardScanA, ha, except_bind_ok] at h
      split at h
      · rename_i hcond
        simp only [pure, Except.pure, Except.ok.injEq,
          Option.some.injEq] at h
        subst h
        intro hs
        rw [hs] at hcond
        simp [pyStartsWith] at hcond
      · exact ih h

theorem stratById_some {lk : Except Unit Element} {s : String}
    (h : stratById lk = some s) : s ≠ "" := by
  cases lk with
  | error u => simp [stratById] at h
  | ok el =>
    cases he : el.href with
    | error u => simp [stratById, he] at h
    | ok o =>
      simp only [stratById, he] at h
      exact hrefTruthy_some h

theorem stratClass_some {p : Page} {s : String}
    (h : stratClass p = some s) : s ≠ "" := by
  cases hc : p.classGetLink with
  | error u => simp [stratClass, hc] at h
  | ok els =>
    simp only [stratClass, hc] at h
    cases hf : firstHref els with
    | error u => simp [hf] at h
    | ok r =>
      simp only [hf] at h
      subst h
      exact firstHref_some hf

theorem stratText_some {p : Page} {s : String}
    (h : stratText p = some s) : s ≠ "" := by
  cases hc : p.textGetLink with
  | error u => simp [stratText, hc] at h
  | ok els =>
    simp only [stratText, hc] at h
    cases hf : textScan els with
    | error u => simp [hf] at h
    | ok r =>
      simp only [hf] at h
      subst h
      exact textScan_some hf

theorem strat45_some {p : Page} {s : String}
    (h : strat45 p = some s) : s ≠ "" := by
  cases ha : p.anchors with
  | error u => simp [strat45, ha] at h
  | ok anchors =>
    simp only [strat45, ha] at h
    cases hr : reverseScanA anchors.reverse with
    | error u => simp [hr, except_bind_error] at h
    | ok ro =>
      simp only [hr, except_bind_ok] at h
      cases ro with
      | some r =>
        simp only [pure, Except.pure, Option.some.injEq] at h
        subst h
        exact reverseScanA_some hr
      | none =>
        cases hfw : forwardScanA anchors with
        | error u => simp [hfw] at h
        | ok fo =>
          simp only [hfw] at h
          subst h
          exact forwardScanA_some hfw

/-- C10: `find_get_link` never returns the empty string — every successful
strategy yields a non-empty URL. -/
theorem find_get_link_nonempty (p : Page) (s : String)
    (h : find_get_link p = some s) : s ≠ "" := by
  simp only [find_get_link] at h
  cases h1 : stratById p.idGetLink with
  | some r =>
    simp only [h1, Option.some.injEq] at h
    subst h
    exact stratById_some h1
  | none =>
    simp only [h1] at h
    cases h2 : stratById p.idGtLink with
    | some r =>
      simp only [h2, Option.some.injEq] at h
      subst h
      exact stratById_some h2
    | none =>
      simp only [h2] at h
      cases h3 : stratClass p with
      | some r =>
        simp only [h3, Option.some.injEq] at h
        subst h
        exact stratClass_some h3
      | none =>
        simp only [h3] at h
        cases h4 : stratText p with
        | some r =>
          simp only [h4, Option.some.injEq] at h
          subst h
          exact stratText_some h4
        | none =>
          simp only [h4] at h
          exact strat45_some h

/-- Witness for C10 on the concrete page with a stable-id control. -/
theorem find_get_link_nonempty_witness :
    find_get_link bothControlsPage = some "https://id.example/final" ∧
    "https://id.example/final" ≠ "" :=
  ⟨rfl, find_get_link_nonempty bothControlsPage "https://id.example/final" rfl⟩

/-! ## Countdown detector properties (C5, C7, C9) -/

theorem cycleZero_false_of_not_found {p : CPage} (h : cycleFound p = false) :
    cycleZero p = false := by
  simp only [cycleFound, List.any_eq_false] at h
  simp only [cycleZero, List.any_eq_false]
  intro s hs
  have hf := h s hs
  cases s with
  | error u => simp [selZero]
  | ok es =>
    simp only [selFound, Bool.not_eq_true] at hf
    have hes : es = [] := by
      cases es with
      | nil => rfl
      | cons a as => simp at hf
    subst hes
    simp [selZero]

/-- If the very first poll cycle locates no countdown element, the detector
returns `false` without a single sleep. -/
theorem wait_no_gate (pages : Nat → CPage) (fuel : Nat)
    (h : cycleFound (pages 0) = false) :
    wait_for_countdown_zero pages fuel = false ∧
      countdownSleepCount pages fuel = 0 := by
  have hz := cycleZero_false_of_not_found h
  cases fuel with
  | zero => exact ⟨rfl, rfl⟩
  | succ n =>
    constructor
    · rw [wait_for_countdown_zero, if_neg (by simp [hz]), if_neg (by simp [h])]
    · rw [countdownSleepCount, if_neg (by simp [hz]), if_neg (by simp [h])]

/-- If every polled cycle keeps showing a located, still-positive gate, the
detector times out: it returns `false` after sleeping through the whole
budget. -/
theorem wait_all_positive :
    ∀ (fuel : Nat) (pages : Nat → CPage),
      (∀ t, t < fuel → cycleFound (pages t) = true ∧
        cycleZero (pages t) = false) →
      wait_for_countdown_zero pages fuel = false ∧
        countdownSleepCount pages fuel = fuel := by
  intro fuel
  induction fuel with
  | zero => intro pages _; exact ⟨rfl, rfl⟩
  | succ n ih =>
    intro pages h
    obtain ⟨hf0, hz0⟩ := h 0 (by omega)
    have hrec := ih (fun m => pages (m + 1)) (fun t ht => h (t + 1) (by omega))
    constructor
    · rw [wait_for_countdown_zero, if_neg (by simp [hz0]), if_pos hf0]
      exact hrec.1
    · rw [countdownSleepCount, if_neg (by simp [hz0]), if_pos hf0, hrec.2]
      omega

/-- Temporal characterisation of the detector: it returns `true` exactly
when some cycle within the budget reaches zero and every earlier cycle kept
locating a gate. -/
theorem wait_true_iff :
    ∀ (fuel : Nat) (pages : Nat → CPage),
      (wait_for_countdown_zero pages fuel = true ↔
        ∃ t, t < fuel ∧ cycleZero (pages t) = true ∧
          ∀ u, u < t → cycleFound (pages u) = true) := by
  intro fuel
  induction fuel with
  | zero => intro pages; simp [wait_for_countdown_zero]
  | succ n ih =>
    intro pages
    rw [wait_for_countdown_zero]
    by_cases hz : cycleZero (pages 0) = true
    · rw [if_pos hz]
      constructor
      · intro _
        exact ⟨0, by omega, hz, fun u hu => absurd hu (by omega)⟩
      · intro _
        rfl
    · rw [if_neg hz]
      by_cases hf : cycleFound (pages 0) = true
      · rw [if_pos hf, ih (fun m => pages (m + 1))]
        constructor
        · rintro ⟨t, ht, hzt, hall⟩
          refine ⟨t + 1, by omega, hzt, ?_⟩
          intro u hu
          cases u with
          | zero => exact hf
          | succ v => exact hall v (by omega)
        · rintro ⟨t, ht, hzt, hall⟩
          cases t with
          | zero => exact absurd hzt hz
          | succ v =>
            refine ⟨v, by omega, hzt, ?_⟩
            intro u hu
            exact hall (u + 1) (by omega)
      · rw [if_neg hf]
        simp only [Bool.false_eq_true, false_iff]
        rintro ⟨t, ht, hzt, hall⟩
        cases t with
        | zero => exact hz hzt
        | succ v => exact hf (hall 0 (by omega))

/-- A poll-cycle page on which no countdown selector locates anything. -/
def noGateCPage : CPage :=
  { ceTime := .ok [], timer := .ok [], countdownCss := .ok [],
    spanTimer := .ok [] }

/-- C7: if no countdown locator matches any element on the first poll cycle,
the detector returns `false` ("nothing to wait for") immediately, without a
single `time.sleep(1)`. -/
theorem countdown_no_gate_short_circuit (pages : Nat → CPage) (fuel : Nat)
    (h : cycleFound (pages 0) = false) :
    wait_for_countdown_zero pages fuel = false ∧
      countdownSleepCount pages fuel = 0 :=
  wait_no_gate pages fuel h

/-- Witness for C7 on a page with all selectors empty. -/
theorem countdown_no_gate_short_circuit_witness :
    wait_for_countdown_zero (fun _ => noGateCPage) 20 = false ∧
      countdownSleepCount (fun _ => noGateCPage) 20 = 0 :=
  countdown_no_gate_short_circuit (fun _ => noGateCPage) 20 rfl

/-- C9: the detector returns `true` iff some located element's concatenated
digit/sign characters parse to an integer `<= 0` during polling; both the
"no gate present" case and the "timed out still positive" case return the
same value `false`, indistinguishable to the caller. -/
theorem countdown_true_iff_zero_seen (pages : Nat → CPage) (fuel : Nat) :
    (wait_for_countdown_zero pages fuel = true ↔
      ∃ t, t < fuel ∧ cycleZero (pages t) = true ∧
        ∀ u, u < t → cycleFound (pages u) = true) ∧
    (∀ e : CElem, elemZero e = true ↔
      ∃ txt, e.text = Except.ok txt ∧
        ∃ n, pyIntOfDigits (collectSignDigits txt) = some n ∧ n ≤ 0) ∧
    (cycleFound (pages 0) = false →
      wait_for_countdown_zero pages fuel = false) ∧
    ((∀ t, t < fuel → cycleFound (pages t) = true ∧
        cycleZero (pages t) = false) →
      wait_for_countdown_zero pages fuel = false) := by
  refine ⟨wait_true_iff fuel pages, ?_, ?_, ?_⟩
  · intro e
    cases he : e.text with
    | error u => simp [elemZero, he]
    | ok t2 =>
      cases hp : pyIntOfDigits (collectSignDigits t2) with
      | none => simp [elemZero, he, hp]
      | some n => simp [elemZero, he, hp]
  · intro h
    exact (wait_no_gate pages fuel h).1
  · intro h
    exact (wait_all_positive fuel pages h).1

/-- A poll-cycle page whose only countdown element is a `timer` element with
the given text. -/
def singleTimerCPage (t : String) : CPage :=
  { ceTime := .error (), timer := .ok [{ text := .ok t }],
    countdownCss := .ok [], spanTimer := .ok [] }

/-- Witness for C9: a `timer` element showing `"0"` resolves the wait. -/
theorem countdown_true_iff_zero_seen_witness :
    wait_for_countdown_zero (fun _ => singleTimerCPage "0") 20 = true ∧
    wait_for_countdown_zero (fun _ => noGateCPage) 20 = false :=
  ⟨(countdown_true_iff_zero_seen (fun _ => singleTimerCPage "0") 20).1.mpr
      ⟨0, by omega, rfl, fun u hu => absurd hu (by omega)⟩,
   (countdown_true_iff_zero_seen (fun _ => noGateCPage) 20).2.2.1 rfl⟩

/-- Modelled from the spec: "parse only the leading run of digit/sign
characters from its text" — the leading digit/sign run of the (stripped)
element text, stated for comparison with what the code actually parses. -/
def specLeadingRun (t : String) : String :=
  ((pyStrip t).toList.takeWhile (fun c => c.isDigit || c = '-')).asString

/-- The countdown value the code parses from an element text (app.py lines
92-101): `int` of the concatenation of ALL digit/sign characters. -/
theorem cycleZero_singleTimer (t : String) :
    cycleZero (singleTimerCPage t) = elemZero { text := .ok t } := by
  simp [cycleZero, cpageSelectors, singleTimerCPage, selZero]

theorem cycleFound_singleTimer (t : String) :
    cycleFound (singleTimerCPage t) = true := by
  simp [cycleFound, cpageSelectors, singleTimerCPage, selFound]

/-- C5 counterexample: the element text `"a0"` has NO leading digit/sign run
(so per the claim it should be treated as "not yet resolved" and polling
should continue), yet the detector immediately returns `true`: it collects
the digit `'0'` from the middle of the text and parses it as `0 <= 0`. -/
theorem countdown_nonleading_digits_counterexample :
    specLeadingRun "a0" = "" ∧
    wait_for_countdown_zero (fun _ => singleTimerCPage "a0") 20 = true ∧
    countdownSleepCount (fun _ => singleTimerCPage "a0") 20 = 0 :=
  ⟨rfl, rfl, rfl⟩

/-- C5 (amended): for each located element the detector concatenates EVERY
digit and `'-'` character of the stripped element text (not only a leading
run) and parses the concatenation as an integer; if the concatenation is
empty or fails to parse, the element is skipped and polling continues for
the whole budget — never an error; a parsed value `<= 0` resolves the wait
at once. -/
theorem countdown_parse_behaviour (t : String) (fuel : Nat) :
    (pyIntOfDigits (collectSignDigits t) = none →
      wait_for_countdown_zero (fun _ => singleTimerCPage t) fuel = false ∧
      countdownSleepCount (fun _ => singleTimerCPage t) fuel = fuel) ∧
    (∀ n : Int, pyIntOfDigits (collectSignDigits t) = some n → n ≤ 0 →
      0 < fuel →
      wait_for_countdown_zero (fun _ => singleTimerCPage t) fuel = true) ∧
    (∀ n : Int, pyIntOfDigits (collectSignDigits t) = some n → 0 < n →
      wait_for_countdown_zero (fun _ => singleTimerCPage t) fuel = false ∧
      countdownSleepCount (fun _ => singleTimerCPage t) fuel = fuel) := by
  refine ⟨?_, ?_, ?_⟩
  · intro hp
    have hz : cycleZero (singleTimerCPage t) = false := by
      rw [cycleZero_singleTimer]
      simp [elemZero, hp]
    exact wait_all_positive fuel _
      (fun u _ => ⟨cycleFound_singleTimer t, hz⟩)
  · intro n hp hn hfuel
    have hz : cycleZero (singleTimerCPage t) = true := by
      rw [cycleZero_singleTimer]
      simp [elemZero, hp, hn]
    obtain ⟨m, rfl⟩ : ∃ m, fuel = m + 1 := ⟨fuel - 1, by omega⟩
    rw [wait_for_countdown_zero, if_pos hz]
  · intro n hp hn
    have hz : cycleZero (singleTimerCPage t) = false := by
      rw [cycleZero_singleTimer]
      simp only [elemZero, hp]
      simp
      omega
    exact wait_all_positive fuel _
      (fun u _ => ⟨cycleFound_singleTimer t, hz⟩)

/-- Witness for the amended C5: a `"-5"` text resolves the wait; an all-letter
text and a positive `"12"` text poll out the entire budget. -/
theorem countdown_parse_behaviour_witness :
    wait_for_countdown_zero (fun _ => singleTimerCPage "-5") 5 = true ∧
    (wait_for_countdown_zero (fun _ => singleTimerCPage "abc") 5 = false ∧
      countdownSleepCount (fun _ => singleTimerCPage "abc") 5 = 5) ∧
    (wait_for_countdown_zero (fun _ => singleTimerCPage "12") 5 = false ∧
      countdownSleepCount (fun _ => singleTimerCPage "12") 5 = 5) :=
  ⟨(countdown_parse_behaviour "-5" 5).2.1 (-5) rfl (by omega) (by omega),
   (countdown_parse_behaviour "abc" 5).1 rfl,
   (countdown_parse_behaviour "12" 5).2.2 12 rfl (by omega)⟩
